import Mathlib

/-!
Verification development for the agentic RAG reporting repository
(planning agent, coordinator agent, log retriever, feedback manager).

The Python source is shallowly embedded: LLM and network calls are
oracles passed as explicit arguments, mutable object attributes become
fields of an explicit state record, and process exit / raised exceptions
become `Except` results.  Each definition is translated from the named
source function; doc comments cite the file and the behaviour modelled.
-/

set_option autoImplicit false

namespace PlanningAgent

/-- Outcome of the planner LLM call in `planning_agent.py`, as seen by
`plan_query` after `json.loads(response.text)`:
* `error` — the API call raised, or `response.text` was not valid JSON
  (`json.loads` raised);
* `jsonNonObject` — valid JSON but not an object, so the subsequent
  `plan.get` lookup of the action raises `AttributeError` (caught by the same
  `except`);
* `jsonObject kvs` — a JSON object, modelled as an ordered association
  list of string keys to string values (the fields the program reads,
  `action` and `reason`, are strings). -/
inductive PlannerResponse where
  | error : PlannerResponse
  | jsonNonObject : PlannerResponse
  | jsonObject : List (String × String) → PlannerResponse

/-- Python `dict.get(k)`: the value at the first matching key, if any. -/
def dictGet (d : List (String × String)) (k : String) : Option String :=
  (d.find? (fun kv => kv.1 == k)).map (fun kv => kv.2)

/-- Python `dict.get(k, default)`. -/
def dictGetD (d : List (String × String)) (k : String) (dflt : String) : String :=
  (dictGet d k).getD dflt

/-- The fallback plan returned by the `except` branch of
`PlanningAgent.plan_query` (`planning_agent.py` line 70). -/
def fallbackPlan : List (String × String) :=
  [("action", "BOTH"), ("reason", "Planner error fallback.")]

/-- `PlanningAgent.plan_query` (`planning_agent.py` lines 26-70), as a
function of the LLM-call outcome: on a successfully parsed JSON object
it returns the parsed object unchanged (no validation of the `action`
field); on any exception — API failure, invalid JSON, or non-object
JSON (where `plan.get` raises) — it returns `fallbackPlan`. -/
def plan_query (resp : PlannerResponse) : List (String × String) :=
  match resp with
  | .jsonObject kvs => kvs
  | _ => fallbackPlan

/-- The four routing labels listed in the planning prompt
(`planning_agent.py` line 43). -/
def validActions : List String :=
  ["CSV_ONLY", "LOGS_ONLY", "BOTH", "OUT_OF_SCOPE"]

/-- Whether a plan dictionary has an `action` field that is one of the
four routing labels. -/
def planActionValid (p : List (String × String)) : Bool :=
  match dictGet p "action" with
  | some a => validActions.contains a
  | none => false

end PlanningAgent

namespace Factory

/-- A pandas DataFrame as loaded by `pd.read_csv`: a header of column
names and the data rows (cell values kept as their textual CSV form;
the program only ever serializes them back to text). -/
structure DataFrame where
  columns : List String
  rows : List (List String)
  deriving DecidableEq, Repr

/-- `df.head(n)`: the first `n` rows, same columns. -/
def DataFrame.head (df : DataFrame) (n : Nat) : DataFrame :=
  ⟨df.columns, df.rows.take n⟩

/-- `df.to_csv(index=False)`: the header line then every data row, each
comma-joined and newline-terminated (the synthetic-data cells contain
no commas or quotes, so no quoting arises). -/
def DataFrame.to_csv (df : DataFrame) : String :=
  String.intercalate "," df.columns ++ "\n"
    ++ String.join (df.rows.map (fun r => String.intercalate "," r ++ "\n"))

/-- `df.to_markdown(index=False)`: a pipe table with a header row, a
separator row, and one line per data row.  (Cell padding done by
tabulate is abstracted away; the table content and row structure are
kept.) -/
def DataFrame.to_markdown (df : DataFrame) : String :=
  "| " ++ String.intercalate " | " df.columns ++ " |\n"
    ++ "|" ++ String.join (df.columns.map (fun _ => "---|")) ++ "\n"
    ++ String.join (df.rows.map (fun r => "| " ++ String.intercalate " | " r ++ " |\n"))

/-- A file system restricted to what `load_data` touches: which CSV
paths exist and, for those that do, the table `pd.read_csv` yields. -/
def FileSystem := List (String × DataFrame)

/-- `os.path.exists` + `pd.read_csv` combined: the table at `path`, or
`none` when the file is absent. -/
def fsRead (fs : FileSystem) (path : String) : Option DataFrame :=
  (List.find? (fun e => e.1 == path) fs).map (fun e => e.2)

/-- The `self.data_files` dictionary of `EVSmartFactoryAgent.load_data`
(`rag_agent.py` lines 66-70), in its insertion order. -/
def data_files : List (String × String) :=
  [("Manufacturing", "data/factory_manufacturing.csv"),
   ("Performance", "data/vehicle_performance.csv"),
   ("Issues", "data/quality_issues.csv")]

/-- `EVSmartFactoryAgent.load_data` (`rag_agent.py` lines 64-81): walks
`data_files` in order; an existing file is read into `self.dfs`, and a
missing file triggers `sys.exit(1)` on the spot (modelled as
`Except.error 1`, carrying the exit status). -/
def load_data (fs : FileSystem) : Except Nat (List (String × DataFrame)) :=
  data_files.foldlM
    (fun acc nd =>
      match fsRead fs nd.2 with
      | some df => Except.ok (acc ++ [(nd.1, df)])
      | none => Except.error 1)
    []

/-- One `=== <name> Data Table ===` section of `self.full_context_csv`
(`rag_agent.py` line 91). -/
def csvSection (name : String) (df : DataFrame) : String :=
  "\n=== " ++ name ++ " Data Table ===\n" ++ df.to_csv ++ "\n"

/-- One `Dataset:` block of `self.data_summary` (`rag_agent.py`
line 89): dataset name, column names, and a `df.head(3)` preview. -/
def summaryEntry (name : String) (df : DataFrame) : String :=
  "\nDataset: " ++ name ++ "\nColumns: " ++ String.intercalate ", " df.columns
    ++ "\nPreview:\n" ++ (df.head 3).to_markdown ++ "\n"

/-- The value `get_structured_context` leaves in `self.full_context_csv`:
the fold of `csvSection` over `self.dfs` in dictionary order, started
from the empty string. -/
def fullContextOf (dfs : List (String × DataFrame)) : String :=
  String.join (dfs.map (fun nd => csvSection nd.1 nd.2))

/-- The value `get_structured_context` leaves in `self.data_summary`. -/
def summaryOf (dfs : List (String × DataFrame)) : String :=
  "--- STRUCTURED DATA (Statistics) ---\n"
    ++ String.join (dfs.map (fun nd => summaryEntry nd.1 nd.2))

/-- The mutable attributes of `EVSmartFactoryAgent` that the claims
concern (`rag_agent.py` lines 37-59): the loaded tables, the context
strings carried between queries, and whether `LogRetriever()`
initialized (on exception it is set to `None`). -/
structure AgentState where
  dfs : List (String × DataFrame)
  data_summary : String
  full_context_csv : String
  log_context : String
  last_csv_context : String
  last_log_context : String
  logRetrieverAvailable : Bool
  deriving Repr

/-- The attribute values set by `EVSmartFactoryAgent.__init__`
(`rag_agent.py` lines 37-45) before `load_data` runs. -/
def initState (avail : Bool) : AgentState :=
  { dfs := []
    data_summary := ""
    full_context_csv := ""
    log_context := ""
    last_csv_context := "No CSV context yet."
    last_log_context := "No logs retrieved yet."
    logRetrieverAvailable := avail }

/-- `EVSmartFactoryAgent.get_structured_context` (`rag_agent.py` lines
83-93): with no loaded tables it returns early ("No CSV Data.") leaving
the state unchanged; otherwise it rebuilds `self.data_summary` from
scratch and resets then refills `self.full_context_csv`, one schema
block and one full-CSV section per dataset, in dictionary order. -/
def get_structured_context (s : AgentState) : AgentState :=
  if s.dfs.isEmpty then s
  else
    { s with
      data_summary := summaryOf s.dfs
      full_context_csv := fullContextOf s.dfs }

/-- A streamed chunk as seen by the caller of `ask`: every variant is an
object with a `.text` attribute (`GenericStreamResponse` for the
out-of-scope refusal, the model stream chunks, and the `ErrorChunk`
yielded after the retries are exhausted). -/
inductive Chunk where
  | refusal : String → Chunk
  | content : String → Chunk
  | errorChunk : String → Chunk
  deriving DecidableEq, Repr

/-- The `.text` attribute read by `app.py` / `main`. -/
def Chunk.text : Chunk → String
  | .refusal s => s
  | .content s => s
  | .errorChunk s => s

/-- Outcome of one `generate_content_stream` attempt (`rag_agent.py`
lines 198-209): either the stream is consumed to the end, yielding the
listed chunk texts, or an exception is raised after the listed chunk
texts were already yielded, with the exception message. -/
inductive AttemptResult where
  | success : List String → AttemptResult
  | failure : List String → String → AttemptResult

/-- What the retry loop produced: the chunks yielded, the successive
`time.sleep` durations in order, and how many attempts were made. -/
structure SynthOutcome where
  chunks : List Chunk
  waits : List Nat
  attemptsMade : Nat
  deriving DecidableEq, Repr

/-- The retry loop of `ask` (`rag_agent.py` lines 189-235), recursing on
the remaining iterations of `for attempt in range(max_retries)`:
a successful attempt streams its chunks and returns; a failed attempt
with iterations left sleeps `waitTime` seconds, doubles `waitTime` and
retries; a failed last attempt yields one `ErrorChunk` and returns. -/
def synthGo (attempts : Nat → AttemptResult) : Nat → Nat → Nat → SynthOutcome
  | _, _, 0 => ⟨[], [], 0⟩
  | attempt, waitTime, fuel + 1 =>
    match attempts attempt with
    | .success cs => ⟨cs.map Chunk.content, [], 1⟩
    | .failure cs e =>
      if fuel = 0 then
        ⟨cs.map Chunk.content ++ [Chunk.errorChunk ("\n⚠️ Error: " ++ e)], [], 1⟩
      else
        let rest := synthGo attempts (attempt + 1) (waitTime * 2) fuel
        ⟨cs.map Chunk.content ++ rest.chunks, waitTime :: rest.waits, rest.attemptsMade + 1⟩

/-- `max_retries = 3` (`rag_agent.py` line 189). -/
def max_retries : Nat := 3

/-- `wait_time = 2` (`rag_agent.py` line 190). -/
def initial_wait_time : Nat := 2

/-- The whole retry loop with the constants of the source. -/
def synthesize (attempts : Nat → AttemptResult) : SynthOutcome :=
  synthGo attempts 0 initial_wait_time max_retries

/-- The refusal text built for an OUT_OF_SCOPE plan (`rag_agent.py`
lines 113-121). -/
def refusalText (reason : String) : String :=
  "🛡️ **Out of Scope**\n\n**Reason:** " ++ reason
    ++ "\n\nI am a specialized **EV Factory AI Assistant**. I can only help you with:\n- 📊 Production Statistics (Yield, SoH)\n- 📝 Error Log Analysis (E-301, V2.1.0)\n- 🏭 Manufacturing Quality Issues"

/-- The synthesis prompt `self.system_instruction` (`rag_agent.py` lines
153-181): the f-string with the plan, `self.data_summary`,
`self.full_context_csv` (the "Reference Data" slot) and
`self.log_context` substituted in. -/
def system_instruction (action reason ds fcc lc : String) : String :=
  "\n        You are the Chief Engineer and Data Strategist of an EV Smart Factory.\n\n        PLANNING DECISION: "
    ++ action
    ++ "\n        REASONING: " ++ reason
    ++ "\n\n        Data Schema Preview:\n        " ++ ds
    ++ "\n\n        YOUR MISSION:\n        1. Analyze cross-table correlations (e.g., specific Firmware vs. Quality Issues).\n        2. Provide data-driven insights using professional engineering terminology (Yield Rate, SoH, Root Cause).\n        3. If the user asks broadly, summarize key risks found in the data.\n\n        Reference Data for your analysis:\n        "
    ++ fcc
    ++ "\n\n        Additionally, you have access to recent production logs from the factory\x27s End-of-Line test station.\n        "
    ++ lc
    ++ "\n\n        --- INSTRUCTIONS ---\n        - **Word Limit:** Keep your answer within 300 words.\n        - **General Trends:** If the user asks about stats (e.g., \"Yield rate\"), rely on CSV data.\n        - **Issue Severity:** If the user asks about failures or errors, use green/red highlighting to indicate severity.\n        - **Root Causes:** If the user asks about specific failures (e.g., \"Why did v2.1.0 fail?\"), rely on the LOG entries.\n        - **Correlation:** Try to link CSV anomalies (e.g., Low SOH) with Log errors (e.g., Voltage drift).\n        - **Actionable Advice:** When identifying a log error, cite the specific Error Code and the Assigned Team.\n\n        "

/-- The per-query nondeterminism `ask` consumes: the plan the Planning
Agent returned, the string `get_relevant_logs` would return for this
question, and the per-attempt outcomes of the synthesis stream. -/
structure AskOracles where
  plan : List (String × String)
  logResult : String
  attempts : Nat → AttemptResult

/-- Everything observable about one `ask` call: the updated agent
state, the yielded chunks, which retrieval steps ran, whether the
synthesis call was reached and with which prompt, and the retry
timing. -/
structure AskTrace where
  finalState : AgentState
  output : List Chunk
  ranCSVStep : Bool
  ranLogStep : Bool
  calledRetriever : Bool
  ranSynthesis : Bool
  prompt : Option String
  waits : List Nat
  attemptsMade : Nat

/-- `EVSmartFactoryAgent.ask` (`rag_agent.py` lines 95-235).
Phase 1 reads `action`/`reason` from the plan with the source defaults;
an OUT_OF_SCOPE action yields the single refusal chunk and returns.
Phase 2 calls `get_structured_context` iff `action` is in
["CSV_ONLY", "BOTH"], and enters the log branch iff `action` is in
["LOGS_ONLY", "BOTH"], calling the retriever when it is available and
otherwise setting the unavailable message.  (The dead store
`self.csv_context = ""` at line 134 is omitted: that attribute is never
read.)  Note `self.full_context_csv` is NOT reset in phase 2, so a
value left by an earlier query flows into phase 3.  Phase 3 assembles
`system_instruction` from the current attribute values and runs the
retry loop. -/
def ask (s : AgentState) (o : AskOracles) : AskTrace :=
  let action := PlanningAgent.dictGetD o.plan "action" "BOTH"
  let reason := PlanningAgent.dictGetD o.plan "reason" "This query is not related to factory analytics."
  if action == "OUT_OF_SCOPE" then
    { finalState := s
      output := [Chunk.refusal (refusalText reason)]
      ranCSVStep := false
      ranLogStep := false
      calledRetriever := false
      ranSynthesis := false
      prompt := none
      waits := []
      attemptsMade := 0 }
  else
    let runCSV := action == "CSV_ONLY" || action == "BOTH"
    let s1 := if runCSV then get_structured_context s else s
    let runLogs := action == "LOGS_ONLY" || action == "BOTH"
    let called := runLogs && s1.logRetrieverAvailable
    let logCtx :=
      if runLogs then
        if s1.logRetrieverAvailable then o.logResult
        else "Log analysis subsystem is unavailable."
      else ""
    let s2 := { s1 with
      log_context := logCtx
      last_csv_context := if s1.full_context_csv == "" then "Skipped by Planner" else s1.full_context_csv
      last_log_context := if logCtx == "" then "Skipped by Planner" else logCtx }
    let so := synthesize o.attempts
    { finalState := s2
      output := so.chunks
      ranCSVStep := runCSV
      ranLogStep := runLogs
      calledRetriever := called
      ranSynthesis := true
      prompt := some (system_instruction action reason s2.data_summary s2.full_context_csv s2.log_context)
      waits := so.waits
      attemptsMade := so.attemptsMade }

end Factory

namespace LogRetriever

/-- The retrieval-parameter default of the external vector-index
library: `index.as_retriever()` with no arguments fetches the top 2
most similar chunks (llama_index `VectorIndexRetriever` has
`similarity_top_k = 2` by default). -/
def DEFAULT_SIMILARITY_TOP_K : Nat := 2

/-- The keyword arguments `LogRetriever.__init__` passes to
`VectorStoreIndex.from_documents` beyond the documents themselves
(`log_analyzer.py` line 41): none — the index is built with the
library defaults. -/
def indexBuildKwargs : List String := []

/-- The `similarity_top_k` argument of the `index.as_retriever(...)`
call: `some k` when the kwarg is passed with value `k`, `none` when the
call would leave the library default in force. -/
structure RetrieverBuild where
  similarity_top_k : Option Nat
  deriving DecidableEq, Repr

/-- The retriever construction performed by `LogRetriever.__init__`
(`log_analyzer.py` line 45): `self.index.as_retriever(similarity_top_k=5)`. -/
def retrieverBuild : RetrieverBuild := { similarity_top_k := some 5 }

/-- The number of chunks the built retriever fetches per query: the
passed `similarity_top_k` if the kwarg was given, else the library
default. -/
def effectiveTopK (b : RetrieverBuild) : Nat :=
  b.similarity_top_k.getD DEFAULT_SIMILARITY_TOP_K

end LogRetriever

namespace FeedbackManager

/-- One feedback entry as built by `save_feedback`
(`feedback_manager.py` lines 18-24). -/
structure FeedbackEntry where
  rating : String
  timestamp : String
  query : String
  response : String
  comments : Option String
  deriving DecidableEq, Repr

/-- The state of the feedback JSON file as `_load_data` distinguishes
it (`feedback_manager.py` lines 40-47): absent (`os.path.exists` is
false), present but not valid JSON (`json.load` raises
`JSONDecodeError`), or a stored JSON list of entries. -/
inductive FeedbackFile where
  | missing : FeedbackFile
  | malformed : FeedbackFile
  | stored : List FeedbackEntry → FeedbackFile
  deriving DecidableEq, Repr

/-- `FeedbackManager._load_data`: the stored list when the file holds
one; the empty list when the file is missing or its JSON is invalid
(both exception paths return `[]` rather than raising). -/
def _load_data : FeedbackFile → List FeedbackEntry
  | .stored l => l
  | _ => []

/-- `FeedbackManager._save_data`: overwrites the file with the given
list. -/
def _save_data (l : List FeedbackEntry) : FeedbackFile :=
  FeedbackFile.stored l

/-- `FeedbackManager.save_feedback` (`feedback_manager.py` lines
13-29): load the existing data (or start fresh), append the new entry,
write back. -/
def save_feedback (f : FeedbackFile) (e : FeedbackEntry) : FeedbackFile :=
  _save_data (_load_data f ++ [e])

/-- `FeedbackManager.get_all_feedback` (`feedback_manager.py` lines
31-33). -/
def get_all_feedback (f : FeedbackFile) : List FeedbackEntry :=
  _load_data f

end FeedbackManager

namespace Demo

/-- A small concrete manufacturing table, shaped like
`factory_manufacturing.csv` from `generate_data.py`. -/
def mTable : Factory.DataFrame :=
  ⟨["VIN", "Yield_Rate"], [["V001", "98"], ["V002", "97"]]⟩

/-- A small concrete performance table. -/
def pTable : Factory.DataFrame :=
  ⟨["VIN", "SoH"], [["V001", "95"]]⟩

/-- A small concrete quality-issues table. -/
def iTable : Factory.DataFrame :=
  ⟨["Ticket"], [["T1"]]⟩

/-- A file system holding all three expected CSV files. -/
def fsAll : Factory.FileSystem :=
  [("data/factory_manufacturing.csv", mTable),
   ("data/vehicle_performance.csv", pTable),
   ("data/quality_issues.csv", iTable)]

/-- A file system where `data/quality_issues.csv` is missing. -/
def fsMissingIssues : Factory.FileSystem :=
  [("data/factory_manufacturing.csv", mTable),
   ("data/vehicle_performance.csv", pTable)]

/-- The agent state right after `__init__` ran with all data files
present and the log subsystem up. -/
def loadedState : Factory.AgentState :=
  { Factory.initState true with
    dfs := [("Manufacturing", mTable), ("Performance", pTable), ("Issues", iTable)] }

/-- A planner decision routing to the CSV tables only. -/
def planCSV : List (String × String) :=
  [("action", "CSV_ONLY"), ("reason", "stats query")]

/-- A planner decision routing to the logs only. -/
def planLogs : List (String × String) :=
  [("action", "LOGS_ONLY"), ("reason", "error details")]

/-- A planner decision refusing the query. -/
def planOOS : List (String × String) :=
  [("action", "OUT_OF_SCOPE"), ("reason", "weather talk")]

/-- A synthesis stream that succeeds on every attempt. -/
def okAttempts : Nat → Factory.AttemptResult :=
  fun _ => Factory.AttemptResult.success ["Answer."]

/-- A synthesis stream that raises on every attempt before yielding
anything. -/
def failAttempts : Nat → Factory.AttemptResult :=
  fun _ => Factory.AttemptResult.failure [] "quota exceeded"

/-- Oracles for a CSV_ONLY query. -/
def csvOracles : Factory.AskOracles := ⟨planCSV, "", okAttempts⟩

/-- Oracles for a LOGS_ONLY query whose retrieval returns a fixed
string. -/
def logsOracles : Factory.AskOracles := ⟨planLogs, "relevant log lines", okAttempts⟩

/-- Oracles for an out-of-scope query. -/
def oosOracles : Factory.AskOracles := ⟨planOOS, "", okAttempts⟩

/-- Oracles for a LOGS_ONLY query whose synthesis stream always
fails. -/
def failOracles : Factory.AskOracles := ⟨planLogs, "relevant log lines", failAttempts⟩

end Demo

namespace PlanningAgent

/-- Claim C1 (counterexample): `plan_query` does not validate the LLM
output, so when the planner LLM returns a JSON object whose `action` is
not one of the four labels — here the concrete response
`{"action": "WEATHER", "reason": "r"}` — the returned plan has an
`action` outside {CSV_ONLY, LOGS_ONLY, BOTH, OUT_OF_SCOPE}. -/
theorem plan_query_invalid_action_passthrough :
    planActionValid
      (plan_query (PlannerResponse.jsonObject [("action", "WEATHER"), ("reason", "r")]))
      = false := by
  decide

/-- Claim C1 (amended): `plan_query` returns a plan whose `action` is
one of the four labels CSV_ONLY, LOGS_ONLY, BOTH, OUT_OF_SCOPE
provided every JSON object the LLM may have returned already carries a
valid `action`; the exception path always yields the fallback action
BOTH.  (The code itself performs no validation.) -/
theorem plan_query_action_valid (resp : PlannerResponse)
    (h : ∀ kvs, resp = PlannerResponse.jsonObject kvs → planActionValid kvs = true) :
    planActionValid (plan_query resp) = true := by
  cases resp with
  | error => decide
  | jsonNonObject => decide
  | jsonObject kvs => exact h kvs rfl

/-- Witness for `plan_query_action_valid` at the concrete response
`PlannerResponse.error`. -/
theorem plan_query_action_valid_witness :
    planActionValid (plan_query PlannerResponse.error) = true :=
  plan_query_action_valid PlannerResponse.error (fun _ h => by cases h)

/-- Claim C9: `plan_query` never propagates an exception: for every
outcome of the planner LLM call it returns a plan — the parsed JSON
object when the response parsed to an object, and otherwise exactly the
fallback plan `{"action": "BOTH", "reason": "Planner error fallback."}`. -/
theorem plan_query_never_raises (resp : PlannerResponse) :
    (∃ kvs, resp = PlannerResponse.jsonObject kvs ∧ plan_query resp = kvs) ∨
    plan_query resp = [("action", "BOTH"), ("reason", "Planner error fallback.")] := by
  cases resp with
  | error => right; rfl
  | jsonNonObject => right; rfl
  | jsonObject kvs => left; exact ⟨kvs, rfl, rfl⟩

end PlanningAgent

namespace Factory

/-- `get_structured_context` never touches the log-retriever handle. -/
@[simp]
theorem get_structured_context_avail (s : AgentState) :
    (get_structured_context s).logRetrieverAvailable = s.logRetrieverAvailable := by
  unfold get_structured_context
  split <;> rfl

/-- The optional structured-context step never touches the
log-retriever handle either way. -/
@[simp]
theorem ite_get_structured_context_avail (s : AgentState) (c : Prop) [Decidable c] :
    (if c then get_structured_context s else s).logRetrieverAvailable
      = s.logRetrieverAvailable := by
  split <;> simp

/-- Claim C2: for a plan whose action is not OUT_OF_SCOPE, `ask` runs
the structured-context assembly exactly when the action is CSV_ONLY or
BOTH, and enters the log-retrieval step exactly when the action is
LOGS_ONLY or BOTH; in the log step it calls the retriever when it is
available (storing its result) and otherwise stores the
"Log analysis subsystem is unavailable." message. -/
theorem ask_routing (s : AgentState) (o : AskOracles)
    (h : PlanningAgent.dictGetD o.plan "action" "BOTH" ≠ "OUT_OF_SCOPE") :
    ((ask s o).ranCSVStep = true ↔
      PlanningAgent.dictGetD o.plan "action" "BOTH" = "CSV_ONLY" ∨
      PlanningAgent.dictGetD o.plan "action" "BOTH" = "BOTH") ∧
    ((ask s o).ranLogStep = true ↔
      PlanningAgent.dictGetD o.plan "action" "BOTH" = "LOGS_ONLY" ∨
      PlanningAgent.dictGetD o.plan "action" "BOTH" = "BOTH") ∧
    (s.logRetrieverAvailable = true →
      (ask s o).calledRetriever = (ask s o).ranLogStep ∧
      ((ask s o).ranLogStep = true → (ask s o).finalState.log_context = o.logResult)) ∧
    (s.logRetrieverAvailable = false →
      (ask s o).calledRetriever = false ∧
      ((ask s o).ranLogStep = true →
        (ask s o).finalState.log_context = "Log analysis subsystem is unavailable.")) := by
  have hb : (PlanningAgent.dictGetD o.plan "action" "BOTH" == "OUT_OF_SCOPE") = false :=
    beq_eq_false_iff_ne.mpr h
  refine ⟨?_, ?_, ?_, ?_⟩
  · simp [ask, hb]
  · simp [ask, hb]
  · intro havail
    constructor
    · simp [ask, hb, havail]
    · intro hran
      simp only [ask, hb, Bool.false_eq_true, if_false] at hran ⊢
      simp only [Bool.or_eq_true, beq_iff_eq] at hran
      simp [hran, havail]
  · intro havail
    constructor
    · simp [ask, hb, havail]
    · intro hran
      simp only [ask, hb, Bool.false_eq_true, if_false] at hran ⊢
      simp only [Bool.or_eq_true, beq_iff_eq] at hran
      simp [hran, havail]

/-- Witness for `ask_routing` at a concrete LOGS_ONLY query on a fresh
agent with loaded tables: the log step ran and stored the retrieved
string, the CSV step did not run. -/
theorem ask_routing_witness :
    (Factory.ask Demo.loadedState Demo.logsOracles).ranLogStep = true ∧
    (Factory.ask Demo.loadedState Demo.logsOracles).ranCSVStep = false ∧
    (Factory.ask Demo.loadedState Demo.logsOracles).finalState.log_context = "relevant log lines" := by
  have h := ask_routing Demo.loadedState Demo.logsOracles (by decide)
  have hlog : (Factory.ask Demo.loadedState Demo.logsOracles).ranLogStep = true :=
    h.2.1.mpr (Or.inl (by decide))
  exact ⟨hlog, by decide, (h.2.2.1 rfl).2 hlog⟩

/-- Claim C8: for an OUT_OF_SCOPE plan, `ask` yields exactly one
refusal chunk — its text is the out-of-scope notice with the planner
reason spliced in — and performs no CSV assembly, no log retrieval and
no synthesis call, leaving the agent state unchanged. -/
theorem ask_out_of_scope (s : AgentState) (o : AskOracles)
    (h : PlanningAgent.dictGetD o.plan "action" "BOTH" = "OUT_OF_SCOPE") :
    (ask s o).output =
      [Chunk.refusal
        ("🛡️ **Out of Scope**\n\n**Reason:** "
          ++ PlanningAgent.dictGetD o.plan "reason" "This query is not related to factory analytics."
          ++ "\n\nI am a specialized **EV Factory AI Assistant**. I can only help you with:\n- 📊 Production Statistics (Yield, SoH)\n- 📝 Error Log Analysis (E-301, V2.1.0)\n- 🏭 Manufacturing Quality Issues")] ∧
    (ask s o).ranCSVStep = false ∧
    (ask s o).ranLogStep = false ∧
    (ask s o).calledRetriever = false ∧
    (ask s o).ranSynthesis = false ∧
    (ask s o).attemptsMade = 0 ∧
    (ask s o).prompt = none ∧
    (ask s o).finalState = s := by
  have hb : (PlanningAgent.dictGetD o.plan "action" "BOTH" == "OUT_OF_SCOPE") = true :=
    beq_iff_eq.mpr h
  simp [ask, hb, refusalText, String.append_assoc]

/-- Witness for `ask_out_of_scope` at the concrete out-of-scope plan
with reason "weather talk". -/
theorem ask_out_of_scope_witness :
    (Factory.ask Demo.loadedState Demo.oosOracles).output =
      [Chunk.refusal
        ("🛡️ **Out of Scope**\n\n**Reason:** "
          ++ "weather talk"
          ++ "\n\nI am a specialized **EV Factory AI Assistant**. I can only help you with:\n- 📊 Production Statistics (Yield, SoH)\n- 📝 Error Log Analysis (E-301, V2.1.0)\n- 🏭 Manufacturing Quality Issues")] ∧
    (Factory.ask Demo.loadedState Demo.oosOracles).ranSynthesis = false :=
  have h := ask_out_of_scope Demo.loadedState Demo.oosOracles (by decide)
  ⟨h.1, h.2.2.2.2.1⟩

end Factory

namespace Factory

/-- Claim C3: for every synthesis request (any plan not OUT_OF_SCOPE),
the streaming call is attempted at most `max_retries = 3` times; the
sleeps between failed attempts are exactly 2 then 4 seconds (the wait
doubles after each use); and when all three attempts fail, `ask`
finishes by yielding a single `ErrorChunk` carrying the last error
instead of raising. -/
theorem ask_retry_backoff (s : AgentState) (o : AskOracles)
    (h : PlanningAgent.dictGetD o.plan "action" "BOTH" ≠ "OUT_OF_SCOPE") :
    (ask s o).attemptsMade ≤ 3 ∧
    ((ask s o).waits = [] ∨ (ask s o).waits = [2] ∨ (ask s o).waits = [2, 4]) ∧
    (∀ c0 e0 c1 e1 c2 e2,
      o.attempts 0 = AttemptResult.failure c0 e0 →
      o.attempts 1 = AttemptResult.failure c1 e1 →
      o.attempts 2 = AttemptResult.failure c2 e2 →
      (ask s o).attemptsMade = 3 ∧
      (ask s o).waits = [2, 4] ∧
      (ask s o).output =
        (c0 ++ c1 ++ c2).map Chunk.content
          ++ [Chunk.errorChunk ("\n⚠️ Error: " ++ e2)]) := by
  have hb : (PlanningAgent.dictGetD o.plan "action" "BOTH" == "OUT_OF_SCOPE") = false :=
    beq_eq_false_iff_ne.mpr h
  refine ⟨?_, ?_, ?_⟩
  · cases h0 : o.attempts 0 <;> cases h1 : o.attempts 1 <;> cases h2 : o.attempts 2 <;>
      simp [ask, hb, synthesize, synthGo, max_retries, initial_wait_time, h0, h1, h2]
  · cases h0 : o.attempts 0 <;> cases h1 : o.attempts 1 <;> cases h2 : o.attempts 2 <;>
      simp [ask, hb, synthesize, synthGo, max_retries, initial_wait_time, h0, h1, h2]
  · intro c0 e0 c1 e1 c2 e2 h0 h1 h2
    simp [ask, hb, synthesize, synthGo, max_retries, initial_wait_time, h0, h1, h2]

/-- Witness for `ask_retry_backoff` at a concrete run whose three
stream attempts all fail with "quota exceeded": the agent slept 2 then
4 seconds and yielded exactly one error chunk. -/
theorem ask_retry_backoff_witness :
    (Factory.ask Demo.loadedState Demo.failOracles).waits = [2, 4] ∧
    (Factory.ask Demo.loadedState Demo.failOracles).attemptsMade = 3 ∧
    (Factory.ask Demo.loadedState Demo.failOracles).output =
      [Chunk.errorChunk "\n⚠️ Error: quota exceeded"] := by
  have h := ask_retry_backoff Demo.loadedState Demo.failOracles (by decide)
  have h3 := h.2.2 [] "quota exceeded" [] "quota exceeded" [] "quota exceeded" rfl rfl rfl
  exact ⟨h3.2.1, h3.1, by simpa using h3.2.2⟩

/-- Claim C4: `load_data` walks the three expected CSV files in the
fixed order Manufacturing, Performance, Issues; when all three exist
it loads exactly those three tables, and when any is missing it exits
the process with status 1 instead of continuing with partial data. -/
theorem load_data_fail_fast (fs : FileSystem) :
    (∀ m p i,
      fsRead fs "data/factory_manufacturing.csv" = some m →
      fsRead fs "data/vehicle_performance.csv" = some p →
      fsRead fs "data/quality_issues.csv" = some i →
      load_data fs = Except.ok [("Manufacturing", m), ("Performance", p), ("Issues", i)]) ∧
    ((fsRead fs "data/factory_manufacturing.csv" = none ∨
      fsRead fs "data/vehicle_performance.csv" = none ∨
      fsRead fs "data/quality_issues.csv" = none) →
      load_data fs = Except.error 1) := by
  constructor
  · intro m p i hm hp hi
    simp [load_data, data_files, List.foldlM, Bind.bind, Except.bind, Pure.pure, Except.pure,
      hm, hp, hi]
  · rintro (hm | hp | hi)
    · simp [load_data, data_files, List.foldlM, Bind.bind, Except.bind, Pure.pure, Except.pure, hm]
    · cases h1 : fsRead fs "data/factory_manufacturing.csv" <;>
        simp [load_data, data_files, List.foldlM, Bind.bind, Except.bind, Pure.pure, Except.pure,
          h1, hp]
    · cases h1 : fsRead fs "data/factory_manufacturing.csv" <;>
        cases h2 : fsRead fs "data/vehicle_performance.csv" <;>
          simp [load_data, data_files, List.foldlM, Bind.bind, Except.bind, Pure.pure, Except.pure,
            h1, h2, hi]

/-- Witness for `load_data_fail_fast`: on a file system holding all
three files the three tables load in order, and on one missing
`data/quality_issues.csv` the process exits with status 1. -/
theorem load_data_fail_fast_witness :
    Factory.load_data Demo.fsAll =
      Except.ok [("Manufacturing", Demo.mTable), ("Performance", Demo.pTable), ("Issues", Demo.iTable)] ∧
    Factory.load_data Demo.fsMissingIssues = Except.error 1 :=
  ⟨(load_data_fail_fast Demo.fsAll).1 Demo.mTable Demo.pTable Demo.iTable rfl rfl rfl,
   (load_data_fail_fast Demo.fsMissingIssues).2 (Or.inr (Or.inr rfl))⟩

end Factory

namespace Factory

/-- Claim C5: when the structured-context step runs (action CSV_ONLY or
BOTH) on the three loaded tables, the CSV context placed in
`self.full_context_csv` — and injected verbatim into the Reference
Data slot of the prompt — is the concatenation of one
`=== <name> Data Table ===` section per dataset, in the fixed order
Manufacturing, Performance, Issues, each holding the complete
serialization of that table (header plus every row); and
`self.data_summary` holds, per table, the dataset name, the comma-joined
column list, and a preview of only the first 3 rows. -/
theorem ask_csv_full_context (s : AgentState) (o : AskOracles) (m p i : DataFrame)
    (hdfs : s.dfs = [("Manufacturing", m), ("Performance", p), ("Issues", i)])
    (ha : PlanningAgent.dictGetD o.plan "action" "BOTH" = "CSV_ONLY" ∨
          PlanningAgent.dictGetD o.plan "action" "BOTH" = "BOTH") :
    (ask s o).finalState.full_context_csv =
      csvSection "Manufacturing" m ++ csvSection "Performance" p ++ csvSection "Issues" i ∧
    (ask s o).finalState.data_summary =
      "--- STRUCTURED DATA (Statistics) ---\n"
        ++ (summaryEntry "Manufacturing" m ++ summaryEntry "Performance" p ++ summaryEntry "Issues" i) ∧
    (ask s o).prompt = some (system_instruction
      (PlanningAgent.dictGetD o.plan "action" "BOTH")
      (PlanningAgent.dictGetD o.plan "reason" "This query is not related to factory analytics.")
      ((ask s o).finalState.data_summary)
      ((ask s o).finalState.full_context_csv)
      ((ask s o).finalState.log_context)) ∧
    (∀ nm df, csvSection nm df =
      "\n=== " ++ nm ++ " Data Table ===\n"
        ++ (String.intercalate "," df.columns ++ "\n"
            ++ String.join (df.rows.map (fun r => String.intercalate "," r ++ "\n")))
        ++ "\n") ∧
    (∀ nm df, summaryEntry nm df =
      "\nDataset: " ++ nm ++ "\nColumns: " ++ String.intercalate ", " df.columns
        ++ "\nPreview:\n" ++ DataFrame.to_markdown ⟨df.columns, df.rows.take 3⟩ ++ "\n") := by
  have hne : PlanningAgent.dictGetD o.plan "action" "BOTH" ≠ "OUT_OF_SCOPE" := by
    rcases ha with ha | ha <;> simp [ha]
  have hb : (PlanningAgent.dictGetD o.plan "action" "BOTH" == "OUT_OF_SCOPE") = false :=
    beq_eq_false_iff_ne.mpr hne
  have hcsv : (PlanningAgent.dictGetD o.plan "action" "BOTH" == "CSV_ONLY"
      || PlanningAgent.dictGetD o.plan "action" "BOTH" == "BOTH") = true := by
    rcases ha with ha | ha <;> simp [ha]
  refine ⟨?_, ?_, ?_, ?_, ?_⟩
  · simp [ask, hb, hcsv, get_structured_context, hdfs, fullContextOf, String.join]
  · simp [ask, hb, hcsv, get_structured_context, hdfs, summaryOf, String.join]
  · simp [ask, hb, hcsv]
  · intro nm df
    simp [csvSection, DataFrame.to_csv]
  · intro nm df
    simp [summaryEntry, DataFrame.head]

/-- Witness for `ask_csv_full_context` at a concrete CSV_ONLY query on
the loaded demo tables. -/
theorem ask_csv_full_context_witness :
    (Factory.ask Demo.loadedState Demo.csvOracles).finalState.full_context_csv =
      csvSection "Manufacturing" Demo.mTable ++ csvSection "Performance" Demo.pTable
        ++ csvSection "Issues" Demo.iTable ∧
    (Factory.ask Demo.loadedState Demo.csvOracles).finalState.data_summary =
      "--- STRUCTURED DATA (Statistics) ---\n"
        ++ (summaryEntry "Manufacturing" Demo.mTable ++ summaryEntry "Performance" Demo.pTable
            ++ summaryEntry "Issues" Demo.iTable) :=
  have h := ask_csv_full_context Demo.loadedState Demo.csvOracles
    Demo.mTable Demo.pTable Demo.iTable rfl (Or.inl (by decide))
  ⟨h.1, h.2.1⟩

/-- Claim C7 (failing run): the code keeps `self.full_context_csv`
across queries and never clears it for a LOGS_ONLY plan (phase 2 only
resets the never-read `self.csv_context`), so after a first CSV_ONLY
query has filled it, a second, LOGS_ONLY query still injects the whole
stale CSV context into the Reference Data slot of its synthesis
prompt — and that context is not empty.  This contradicts the claim
that a LOGS_ONLY prompt contains no structured CSV table data. -/
theorem ask_logs_only_stale_csv :
    (Factory.ask (Factory.ask Demo.loadedState Demo.csvOracles).finalState Demo.logsOracles).ranCSVStep
      = false ∧
    (Factory.ask (Factory.ask Demo.loadedState Demo.csvOracles).finalState Demo.logsOracles).prompt
      = some (system_instruction "LOGS_ONLY" "error details"
          (summaryOf Demo.loadedState.dfs) (fullContextOf Demo.loadedState.dfs)
          "relevant log lines") ∧
    fullContextOf Demo.loadedState.dfs ≠ "" := by
  refine ⟨by decide, rfl, by decide⟩

end Factory

/-- Claim C6 (counterexample): it is false that `LogRetriever.__init__`
leaves every retrieval parameter at the library default: the
`as_retriever` call passes `similarity_top_k=5`. -/
theorem retriever_default_config_counterexample :
    ¬ (LogRetriever.indexBuildKwargs = [] ∧
       LogRetriever.retrieverBuild.similarity_top_k = none) := by
  decide

/-- Claim C6 (amended): `LogRetriever.__init__` builds the vector index
itself with the library defaults (no extra kwargs), but constructs the
retriever with the retrieval parameter `similarity_top_k` overridden to
5, so the built retriever fetches 5 chunks per query where the library
default would fetch 2. -/
theorem retriever_build_overrides_top_k :
    LogRetriever.indexBuildKwargs = [] ∧
    LogRetriever.retrieverBuild.similarity_top_k = some 5 ∧
    LogRetriever.effectiveTopK LogRetriever.retrieverBuild = 5 ∧
    LogRetriever.effectiveTopK { similarity_top_k := none } =
      LogRetriever.DEFAULT_SIMILARITY_TOP_K ∧
    LogRetriever.DEFAULT_SIMILARITY_TOP_K = 2 := by
  decide

/-- Claim C10: `save_feedback` stores exactly the previous feedback
list with the one new entry appended at the end — every previously
stored entry is preserved, in order, and the length grows by one; a
missing or JSON-invalid feedback file reads as the empty list (no
exception), so saving on top of it stores a one-entry list, and
`get_all_feedback` always returns a list (it is total on every file
state). -/
theorem save_feedback_appends (f : FeedbackManager.FeedbackFile)
    (e : FeedbackManager.FeedbackEntry) :
    FeedbackManager.get_all_feedback (FeedbackManager.save_feedback f e) =
      FeedbackManager.get_all_feedback f ++ [e] ∧
    (FeedbackManager.get_all_feedback (FeedbackManager.save_feedback f e)).length =
      (FeedbackManager.get_all_feedback f).length + 1 ∧
    FeedbackManager.get_all_feedback FeedbackManager.FeedbackFile.missing = [] ∧
    FeedbackManager.get_all_feedback FeedbackManager.FeedbackFile.malformed = [] ∧
    FeedbackManager.save_feedback FeedbackManager.FeedbackFile.missing e =
      FeedbackManager.FeedbackFile.stored [e] ∧
    FeedbackManager.save_feedback FeedbackManager.FeedbackFile.malformed e =
      FeedbackManager.FeedbackFile.stored [e] ∧
    (∀ l, FeedbackManager.get_all_feedback (FeedbackManager.FeedbackFile.stored l) = l) := by
  cases f <;>
    simp [FeedbackManager.get_all_feedback, FeedbackManager.save_feedback,
      FeedbackManager._load_data, FeedbackManager._save_data]
